import Mathlib

/-!
Verification of the NEO close-approach model and loader
(`src/models.py`, `src/extract.py`) against its specification.

Python values that flow through the model are embedded as `PyVal`;
Python floats (which carry a NaN sentinel with non-reflexive equality)
are embedded as `PyFloat` over exact rationals.  Fallible constructors
and loaders return `Except PyError _`.
-/

set_option autoImplicit false

namespace Neo

/-- A Python float: either the NaN sentinel or an exact numeric value. -/
inductive PyFloat where
  | nan : PyFloat
  | val (q : ℚ) : PyFloat
  deriving DecidableEq, Repr

/-- Python `==` on floats: NaN compares unequal to everything, itself included. -/
def pyFloatEq : PyFloat → PyFloat → Bool
  | PyFloat.nan, _ => false
  | _, PyFloat.nan => false
  | PyFloat.val a, PyFloat.val b => a == b

/-- A dynamically-typed Python value, as passed to the entity constructors. -/
inductive PyVal where
  | none : PyVal
  | str (s : String) : PyVal
  | float (f : PyFloat) : PyVal
  | bool (b : Bool) : PyVal
  | int (n : ℤ) : PyVal
  deriving DecidableEq, Repr

/-- `type(v) == str` -/
def PyVal.isStr : PyVal → Bool
  | PyVal.str _ => true
  | _ => false

/-- `v is None` -/
def PyVal.isNone : PyVal → Bool
  | PyVal.none => true
  | _ => false

/-- `type(v) == float` -/
def PyVal.isFloat : PyVal → Bool
  | PyVal.float _ => true
  | _ => false

/-- `type(v) == bool` -/
def PyVal.isBool : PyVal → Bool
  | PyVal.bool _ => true
  | _ => false

/-- Error taxonomy of the spec: wrong primitive type at construction,
unparseable text, index out of range while reading a record. -/
inductive PyError where
  | TypeKind : PyError
  | FormatKind : PyError
  | IndexKind : PyError
  deriving DecidableEq, Repr

/-- A UTC calendar timestamp at minute precision (the source data has no
seconds). -/
structure Datetime where
  year : Nat
  month : Nat
  day : Nat
  hour : Nat
  minute : Nat
  deriving DecidableEq, Repr

/-- `NearEarthObject` from `src/models.py`: primary designation, optional IAU
name, diameter in kilometers (NaN when unknown), hazardous flag, plus the
collection of linked approaches (indices into the approach collection),
empty at construction. -/
structure NearEarthObject where
  designation : String
  name : Option String
  diameter : PyFloat
  hazardous : Bool
  approaches : List Nat
  deriving DecidableEq, Repr

/-- `NearEarthObject.__init__`: asserts `type(designation) == str`,
`type(name) == str or name is None`, `type(diameter) == float`,
`type(hazardous) == bool`; on success stores the fields and an empty
approaches list.  A failed assert is the `TypeKind` error. -/
def NearEarthObject.init (designation name diameter hazardous : PyVal) :
    Except PyError NearEarthObject :=
  match designation, name, diameter, hazardous with
  | PyVal.str d, PyVal.str n, PyVal.float dia, PyVal.bool h =>
      Except.ok { designation := d, name := some n, diameter := dia,
                  hazardous := h, approaches := [] }
  | PyVal.str d, PyVal.none, PyVal.float dia, PyVal.bool h =>
      Except.ok { designation := d, name := none, diameter := dia,
                  hazardous := h, approaches := [] }
  | _, _, _, _ => Except.error PyError.TypeKind

/-- `NearEarthObject.fullname`: `"{designation} ({name})"` when a name is
present, otherwise the designation alone. -/
def NearEarthObject.fullname (self : NearEarthObject) : String :=
  match self.name with
  | some n => self.designation ++ " (" ++ n ++ ")"
  | none => self.designation

/-- `NearEarthObject.serialize(csv_output)` from `src/models.py`, an ordered
field mapping.  Note the source tests `self.diameter == float('nan')`, which
is Python float equality (`pyFloatEq`). -/
def NearEarthObject.serialize (self : NearEarthObject) (csv_output : Bool) :
    List (String × PyVal) :=
  let nameField :=
    match self.name with
    | none => PyVal.str ""
    | some n => PyVal.str n
  let diameterField :=
    if pyFloatEq self.diameter PyFloat.nan && csv_output then PyVal.str ""
    else PyVal.float self.diameter
  let hazardField :=
    if self.hazardous == false && csv_output then PyVal.str "False"
    else if self.hazardous == true && csv_output then PyVal.str "True"
    else PyVal.bool self.hazardous
  [("designation", PyVal.str self.designation),
   ("name", nameField),
   ("diameter_km", diameterField),
   ("potentially_hazardous", hazardField)]

/-- Parse a run of decimal digits into a number; `none` if empty or not all
digits. -/
def parseDigits (cs : List Char) : Option Nat :=
  if cs.isEmpty then none
  else if cs.all Char.isDigit then
    some (cs.foldl (fun acc c => acc * 10 + (c.toNat - 48)) 0)
  else none

/-- Digit-list value with empty meaning zero (for the parts around a decimal
point, where Python's `float` accepts `"1."` and `".5"`). -/
def digitsVal (cs : List Char) : Nat :=
  cs.foldl (fun acc c => acc * 10 + (c.toNat - 48)) 0

/-- Python's builtin `float(str)` restricted to plain decimal numerals with an
optional sign and at most one point — the only forms occurring in these
datasets.  `none` models a `ValueError`. -/
def parseFloat (s : String) : Option PyFloat :=
  let cs := s.data
  let signBody : Bool × List Char :=
    match cs with
    | '-' :: rest => (true, rest)
    | '+' :: rest => (false, rest)
    | _ => (false, cs)
  let neg := signBody.1
  let body := signBody.2
  let before := body.takeWhile (fun c => c ≠ '.')
  match body.dropWhile (fun c => c ≠ '.') with
  | [] =>
      (parseDigits before).map
        (fun n => PyFloat.val (if neg then mkRat (-(n : ℤ)) 1 else mkRat (n : ℤ) 1))
  | _ :: after =>
      if after.contains '.' then none
      else if before.isEmpty && after.isEmpty then none
      else if !(before.all Char.isDigit) || !(after.all Char.isDigit) then none
      else
        let k := after.length
        let m : ℤ := ((digitsVal before * 10 ^ k + digitsVal after : ℕ) : ℤ)
        some (PyFloat.val (if neg then mkRat (-m) (10 ^ k) else mkRat m (10 ^ k)))

/-- Split a character list at every occurrence of the separator. -/
def splitOnChar (c : Char) : List Char → List (List Char)
  | [] => [[]]
  | x :: xs =>
      match splitOnChar c xs with
      | [] => if x = c then [[], [x]] else [[x]]
      | g :: gs => if x = c then [] :: g :: gs else (x :: g) :: gs

/-- Modelled from the spec: `cd_to_datetime` lives in `helpers.py`, which is
not among the source files.  Per §4.1 it parses the compact calendar format
`"YYYY-MM-DD HH:MM"` (the leading zero of the day optionally stripped) into a
UTC timestamp at minute resolution, and fails with a `FormatKind` error on
unparseable input; a non-string argument also fails. -/
def cd_to_datetime (v : PyVal) : Except PyError Datetime :=
  match v with
  | PyVal.str s =>
      match splitOnChar ' ' s.data with
      | [date, clock] =>
          match splitOnChar '-' date, splitOnChar ':' clock with
          | [y, m, d], [h, mi] =>
              match parseDigits y, parseDigits m, parseDigits d,
                    parseDigits h, parseDigits mi with
              | some yn, some mn, some dn, some hn, some min =>
                  if 1 ≤ mn && mn ≤ 12 && 1 ≤ dn && dn ≤ 31
                      && hn < 24 && min < 60 then
                    Except.ok { year := yn, month := mn, day := dn,
                                hour := hn, minute := min }
                  else Except.error PyError.FormatKind
              | _, _, _, _, _ => Except.error PyError.FormatKind
          | _, _ => Except.error PyError.FormatKind
      | _ => Except.error PyError.FormatKind
  | _ => Except.error PyError.FormatKind

/-- Left-pad a numeral with zeros to two digits. -/
def pad2 (n : Nat) : String :=
  if n < 10 then "0" ++ toString n else toString n

/-- Modelled from the spec: `datetime_to_str` lives in `helpers.py`, which is
not among the source files.  Per §4.1/§3 it formats the timestamp back at
minute precision, `"YYYY-MM-DD HH:MM"`. -/
def datetime_to_str (t : Datetime) : String :=
  toString t.year ++ "-" ++ pad2 t.month ++ "-" ++ pad2 t.day ++ " "
    ++ pad2 t.hour ++ ":" ++ pad2 t.minute

/-- `CloseApproach` from `src/models.py`: foreign-key designation kept as
passed, parsed time, distance and velocity kept exactly as passed, and the
`neo` reference (an index once linked), `none` at construction. -/
structure CloseApproach where
  _designation : PyVal
  time : Datetime
  distance : PyVal
  velocity : PyVal
  neo : Option Nat
  deriving DecidableEq, Repr

/-- `CloseApproach.__init__`: stores `_designation`, `distance` and
`velocity` unchanged and without any type check, parses `time` via
`cd_to_datetime`, and sets `neo` to `None`. -/
def CloseApproach.init (time distance velocity designation : PyVal) :
    Except PyError CloseApproach :=
  match cd_to_datetime time with
  | Except.ok t =>
      Except.ok { _designation := designation, time := t,
                  distance := distance, velocity := velocity, neo := none }
  | Except.error e => Except.error e

/-- `CloseApproach.serialize` from `src/models.py`: the ordered field mapping
`datetime_utc`, `distance_au`, `velocity_km_s`. -/
def CloseApproach.serialize (self : CloseApproach) : List (String × PyVal) :=
  [("datetime_utc", PyVal.str (datetime_to_str self.time)),
   ("distance_au", self.distance),
   ("velocity_km_s", self.velocity)]

/-- One data row of dataset 1 (`neos.csv`), as read by `csv.DictReader`:
the four columns the loader consults. -/
structure NeoRow where
  pdes : String
  name : String
  diameter : String
  pha : String
  deriving DecidableEq, Repr

/-- The per-row body of `load_neos` from `src/extract.py`: empty `name`
becomes `None`, empty `diameter` becomes `float('nan')` and otherwise is
parsed by `float`, `pha == 'Y'` decides `hazardous`; then the
`NearEarthObject` constructor is called. -/
def parseNeoRow (row : NeoRow) : Except PyError NearEarthObject :=
  let name : Option String := if row.name = "" then none else some row.name
  let hazardous : Bool := if row.pha = "Y" then true else false
  match (if row.diameter = "" then some PyFloat.nan
         else parseFloat row.diameter) with
  | none => Except.error PyError.FormatKind
  | some diameter =>
      NearEarthObject.init (PyVal.str row.pdes)
        (match name with
         | none => PyVal.none
         | some n => PyVal.str n)
        (PyVal.float diameter)
        (PyVal.bool hazardous)

/-- `load_neos` from `src/extract.py`: one `NearEarthObject` appended per CSV
data row, in file order; a row that fails to parse aborts the load. -/
def load_neos : List NeoRow → Except PyError (List NearEarthObject)
  | [] => Except.ok []
  | row :: rest =>
      match parseNeoRow row, load_neos rest with
      | Except.ok neo, Except.ok tail => Except.ok (neo :: tail)
      | Except.error e, _ => Except.error e
      | Except.ok _, Except.error e => Except.error e

/-- Python's builtin `float(x)` on a dynamic value: numeric strings are
parsed, floats pass through, booleans and integers are widened; anything
else is a type error. -/
def pyFloat : PyVal → Option PyFloat
  | PyVal.str s => parseFloat s
  | PyVal.float f => some f
  | PyVal.bool b => some (PyFloat.val (mkRat (if b then 1 else 0) 1))
  | PyVal.int n => some (PyFloat.val (mkRat n 1))
  | PyVal.none => none

/-- The per-row body of `load_approaches` from `src/extract.py`: positions 3
(time), 4 (distance), 7 (velocity) and 0 (designation) of one entry of the
JSON `data` array; distance and velocity go through `float`, then the
`CloseApproach` constructor is called. -/
def parseApproachRow (row : List PyVal) : Except PyError CloseApproach :=
  match row.get? 3, row.get? 4, row.get? 7, row.get? 0 with
  | some time, some rawDist, some rawVel, some designation =>
      match pyFloat rawDist, pyFloat rawVel with
      | some distance, some velocity =>
          CloseApproach.init time (PyVal.float distance)
            (PyVal.float velocity) designation
      | _, _ => Except.error PyError.FormatKind
  | _, _, _, _ => Except.error PyError.IndexKind

/-- `load_approaches` from `src/extract.py`: one `CloseApproach` appended per
element of the JSON `data` array, in array order; a row that fails to parse
aborts the load. -/
def load_approaches : List (List PyVal) → Except PyError (List CloseApproach)
  | [] => Except.ok []
  | row :: rest =>
      match parseApproachRow row, load_approaches rest with
      | Except.ok ca, Except.ok tail => Except.ok (ca :: tail)
      | Except.error e, _ => Except.error e
      | Except.ok _, Except.error e => Except.error e

/-- Zero-pad a numeral on the left to `k` digits. -/
def padZeros (k : Nat) (s : String) : String :=
  if s.length < k then String.mk (List.replicate (k - s.length) '0') ++ s
  else s

/-- Python's `str` of a float value: shortest decimal form, with at least one
digit after the point (`str(38.0) == "38.0"`, `str(38.5) == "38.5"`).
Denominators that divide no power of ten cannot arise from `parseFloat`; the
fraction fallback is never reached on values this model produces. -/
def decimalRepr (q : ℚ) : String :=
  let sign := if q.num < 0 then "-" else ""
  let n := q.num.natAbs
  let den := q.den
  match (List.range 40).find? (fun k => 10 ^ k % den = 0) with
  | some k =>
      let scaled := n * 10 ^ k / den
      let ip := scaled / 10 ^ k
      let fp := scaled % 10 ^ k
      if k = 0 then sign ++ toString ip ++ ".0"
      else sign ++ toString ip ++ "." ++ padZeros k (toString fp)
  | none => sign ++ toString n ++ "/" ++ toString den

/-- Modelled from the spec: the tabular writer (not among the source files)
renders each serialized scalar as a CSV cell the way Python's `csv` module
does — strings verbatim, floats and booleans via `str`, `None` as the empty
cell. -/
def pyStr : PyVal → String
  | PyVal.str s => s
  | PyVal.float PyFloat.nan => "nan"
  | PyVal.float (PyFloat.val q) => decimalRepr q
  | PyVal.bool b => if b then "True" else "False"
  | PyVal.int n => toString n
  | PyVal.none => ""

/-- Look a key up in a serialized field mapping and render its cell. -/
def cellOf (d : List (String × PyVal)) (key : String) : String :=
  match d.lookup key with
  | some v => pyStr v
  | none => ""

/-- Modelled from the spec: serializing a NEO to a tabular row (§6 fixed
field order) and reading it back as a dataset-1 row maps `designation` to
the `pdes` column, `name` to `name`, `diameter_km` to `diameter` and
`potentially_hazardous` to `pha`. -/
def tabularRowOf (neo : NearEarthObject) : NeoRow :=
  let d := neo.serialize true
  { pdes := cellOf d "designation",
    name := cellOf d "name",
    diameter := cellOf d "diameter_km",
    pha := cellOf d "potentially_hazardous" }

/-! ### Helper lemmas -/

/-- Characterization of the per-row NEO parse: it succeeds exactly when the
diameter cell is empty (yielding NaN) or parses as a float, and the produced
entity carries the sentinel-decoded fields. -/
theorem parseNeoRow_ok_iff (row : NeoRow) (neo : NearEarthObject) :
    parseNeoRow row = Except.ok neo ↔
      ∃ f, (if row.diameter = "" then some PyFloat.nan
            else parseFloat row.diameter) = some f
        ∧ neo = { designation := row.pdes,
                  name := if row.name = "" then none else some row.name,
                  diameter := f,
                  hazardous := if row.pha = "Y" then true else false,
                  approaches := [] } := by
  unfold parseNeoRow
  by_cases hd : row.diameter = ""
  · by_cases hn : row.name = "" <;>
      simp [hd, hn, NearEarthObject.init, eq_comm]
  · by_cases hn : row.name = "" <;>
      cases hpf : parseFloat row.diameter <;>
      simp [hd, hn, hpf, NearEarthObject.init, eq_comm]

/-- `load_neos` succeeds exactly rowwise, preserving count and order. -/
theorem load_neos_ok (rows : List NeoRow) (neos : List NearEarthObject)
    (h : load_neos rows = Except.ok neos) :
    neos.length = rows.length
    ∧ ∀ i r, rows.get? i = some r →
        ∃ neo, parseNeoRow r = Except.ok neo ∧ neos.get? i = some neo := by
  induction rows generalizing neos with
  | nil =>
      cases h
      exact ⟨rfl, by intro i r hr; simp at hr⟩
  | cons row rest ih =>
      rw [load_neos] at h
      split at h
      · rename_i neo tail hp hl
        injection h with h
        subst h
        obtain ⟨ihl, ihg⟩ := ih tail hl
        refine ⟨by simp [ihl], ?_⟩
        intro i r hr
        cases i with
        | zero =>
            injection hr with hr
            subst hr
            exact ⟨neo, hp, rfl⟩
        | succ j => exact ihg j r hr
      · exact Except.noConfusion h
      · exact Except.noConfusion h

/-- `load_approaches` succeeds exactly rowwise, preserving count and order. -/
theorem load_approaches_ok (rows : List (List PyVal)) (cas : List CloseApproach)
    (h : load_approaches rows = Except.ok cas) :
    cas.length = rows.length
    ∧ ∀ i r, rows.get? i = some r →
        ∃ ca, parseApproachRow r = Except.ok ca ∧ cas.get? i = some ca := by
  induction rows generalizing cas with
  | nil =>
      cases h
      exact ⟨rfl, by intro i r hr; simp at hr⟩
  | cons row rest ih =>
      rw [load_approaches] at h
      split at h
      · rename_i ca tail hp hl
        injection h with h
        subst h
        obtain ⟨ihl, ihg⟩ := ih tail hl
        refine ⟨by simp [ihl], ?_⟩
        intro i r hr
        cases i with
        | zero =>
            injection hr with hr
            subst hr
            exact ⟨ca, hp, rfl⟩
        | succ j => exact ihg j r hr
      · exact Except.noConfusion h
      · exact Except.noConfusion h

/-! ### Claims -/

/-- C1: the tabular branch for an unknown diameter is dead code — the source
tests `self.diameter == float('nan')`, and float equality against NaN is
always false, so the CSV serialization of a NaN-diameter NEO carries the NaN
float itself in `diameter_km`, not the empty string the contract requires;
the structured (JSON) serialization does preserve the NaN. -/
theorem serialize_keeps_nan_in_tabular_output :
    ((NearEarthObject.mk "433" none PyFloat.nan false []).serialize true).lookup
        "diameter_km" = some (PyVal.float PyFloat.nan)
    ∧ ((NearEarthObject.mk "433" none PyFloat.nan false []).serialize true).lookup
        "diameter_km" ≠ some (PyVal.str "")
    ∧ ((NearEarthObject.mk "433" none PyFloat.nan false []).serialize false).lookup
        "diameter_km" = some (PyVal.float PyFloat.nan) := by
  refine ⟨rfl, ?_, rfl⟩
  decide

/-- C2 (counterexample): `CloseApproach.serialize` emits exactly the three
flat keys and no `neo` key, so the claimed four-key record is not what this
method produces. -/
theorem closeApproach_serialize_missing_neo_key :
    ((CloseApproach.mk (PyVal.str "433") (Datetime.mk 1900 1 1 12 0)
        (PyVal.float (PyFloat.val (mkRat 3 20))) (PyVal.float (PyFloat.val (mkRat 26 5)))
        none).serialize).map Prod.fst
      = ["datetime_utc", "distance_au", "velocity_km_s"]
    ∧ ((CloseApproach.mk (PyVal.str "433") (Datetime.mk 1900 1 1 12 0)
        (PyVal.float (PyFloat.val (mkRat 3 20))) (PyVal.float (PyFloat.val (mkRat 26 5)))
        none).serialize).lookup "neo" = none :=
  ⟨rfl, rfl⟩

/-- C2 (amended): serializing a `CloseApproach` yields exactly the keys
`datetime_utc`, `distance_au`, `velocity_km_s`, mapping to the formatted
time and the stored distance and velocity; nesting the linked NEO under a
`neo` key is left to the downstream writer, not done by this method. -/
theorem closeApproach_serialize_fields (ca : CloseApproach) :
    (ca.serialize).map Prod.fst = ["datetime_utc", "distance_au", "velocity_km_s"]
    ∧ ca.serialize.lookup "datetime_utc"
        = some (PyVal.str (datetime_to_str ca.time))
    ∧ ca.serialize.lookup "distance_au" = some ca.distance
    ∧ ca.serialize.lookup "velocity_km_s" = some ca.velocity :=
  ⟨rfl, rfl, rfl, rfl⟩

/-- C3: a NEO built with name `"Ganymed"`, diameter `38.5` and
`hazardous = False`, serialized to its tabular row and re-parsed under the
dataset-1 sentinel rules, reproduces the same name, diameter and hazardous
flag. -/
theorem ganymed_roundtrip (des : String) (neo : NearEarthObject)
    (h : NearEarthObject.init (PyVal.str des) (PyVal.str "Ganymed")
        (PyVal.float (PyFloat.val (mkRat 77 2))) (PyVal.bool false) = Except.ok neo) :
    ∃ neo2, parseNeoRow (tabularRowOf neo) = Except.ok neo2
      ∧ neo2.name = some "Ganymed"
      ∧ neo2.diameter = PyFloat.val (mkRat 77 2)
      ∧ neo2.hazardous = false := by
  have hneo : neo = { designation := des, name := some "Ganymed",
                      diameter := PyFloat.val (mkRat 77 2), hazardous := false,
                      approaches := [] } := by
    have := h
    unfold NearEarthObject.init at this
    injection this with this
    exact this.symm
  subst hneo
  have hrepr : decimalRepr (mkRat 77 2) = "38.5" := by decide
  have hrow : tabularRowOf { designation := des, name := some "Ganymed",
                             diameter := PyFloat.val (mkRat 77 2),
                             hazardous := false, approaches := [] }
      = { pdes := des, name := "Ganymed", diameter := "38.5",
          pha := "False" } := by
    simp [tabularRowOf, NearEarthObject.serialize, cellOf, pyStr, pyFloatEq,
          List.lookup, hrepr]
  have hpf : parseFloat "38.5" = some (PyFloat.val (mkRat 77 2)) := by decide
  have hparse : parseNeoRow { pdes := des, name := "Ganymed",
                              diameter := "38.5", pha := "False" } = Except.ok
        { designation := des, name := some "Ganymed",
          diameter := PyFloat.val (mkRat 77 2), hazardous := false,
          approaches := [] } := by
    simp [parseNeoRow, hpf, NearEarthObject.init]
  rw [hrow, hparse]
  exact ⟨_, rfl, rfl, rfl, rfl⟩

/-- C3 witness at designation `"1036"`. -/
theorem ganymed_roundtrip_witness :
    ∃ neo2, parseNeoRow (tabularRowOf
        { designation := "1036", name := some "Ganymed",
          diameter := PyFloat.val (mkRat 77 2), hazardous := false,
          approaches := [] }) = Except.ok neo2
      ∧ neo2.name = some "Ganymed"
      ∧ neo2.diameter = PyFloat.val (mkRat 77 2)
      ∧ neo2.hazardous = false :=
  ganymed_roundtrip "1036"
    { designation := "1036", name := some "Ganymed",
      diameter := PyFloat.val (mkRat 77 2), hazardous := false, approaches := [] }
    rfl

/-- C4: constructing a `NearEarthObject` fails with `TypeKind` exactly when
one of the four type assertions fails — designation not a string, name
neither string nor `None`, diameter not a float, hazardous not a boolean —
and succeeds otherwise. -/
theorem init_typekind_iff (designation name diameter hazardous : PyVal) :
    (NearEarthObject.init designation name diameter hazardous
        = Except.error PyError.TypeKind
      ↔ ¬ (designation.isStr = true
            ∧ (name.isStr = true ∨ name.isNone = true)
            ∧ diameter.isFloat = true ∧ hazardous.isBool = true))
    ∧ ((∃ neo, NearEarthObject.init designation name diameter hazardous
          = Except.ok neo)
      ↔ (designation.isStr = true
          ∧ (name.isStr = true ∨ name.isNone = true)
          ∧ diameter.isFloat = true ∧ hazardous.isBool = true)) := by
  cases designation <;> cases name <;> cases diameter <;> cases hazardous <;>
    simp [NearEarthObject.init, PyVal.isStr, PyVal.isNone, PyVal.isFloat,
          PyVal.isBool]

/-- C5 (counterexample): the constructor checks only that the designation is
a string, so the empty designation is accepted and stored, violating the
claimed non-emptiness. -/
theorem init_accepts_empty_designation :
    NearEarthObject.init (PyVal.str "") PyVal.none (PyVal.float PyFloat.nan)
        (PyVal.bool false)
      = Except.ok { designation := "", name := none, diameter := PyFloat.nan,
                    hazardous := false, approaches := [] }
    ∧ ({ designation := "", name := none, diameter := PyFloat.nan,
         hazardous := false, approaches := [] } :
          NearEarthObject).designation = "" :=
  ⟨rfl, rfl⟩

/-- C5 (amended): every successfully constructed `NearEarthObject` stores
exactly the designation string it was given; the constructor enforces only
its type and accepts the empty string. -/
theorem init_designation_passthrough (designation name diameter hazardous : PyVal)
    (neo : NearEarthObject)
    (h : NearEarthObject.init designation name diameter hazardous
        = Except.ok neo) :
    designation = PyVal.str neo.designation := by
  unfold NearEarthObject.init at h
  split at h
  · injection h with h
    subst h
    rfl
  · injection h with h
    subst h
    rfl
  · exact Except.noConfusion h

/-- C5 (amended) witness at designation `"433"`. -/
theorem init_designation_passthrough_witness :
    PyVal.str "433"
      = PyVal.str ({ designation := "433", name := none,
                     diameter := PyFloat.nan, hazardous := false,
                     approaches := [] } : NearEarthObject).designation :=
  init_designation_passthrough (PyVal.str "433") PyVal.none
    (PyVal.float PyFloat.nan) (PyVal.bool false)
    { designation := "433", name := none, diameter := PyFloat.nan,
      hazardous := false, approaches := [] } rfl

/-- C6: in every dataset-1 row, an empty `name` cell becomes an absent name
and a non-empty one is kept; an empty `diameter` cell becomes the NaN
sentinel — never zero — and a non-empty one is kept as the parsed float. -/
theorem load_neos_sentinels (row : NeoRow) (neo : NearEarthObject)
    (h : parseNeoRow row = Except.ok neo) :
    (row.name = "" → neo.name = none)
    ∧ (row.name ≠ "" → neo.name = some row.name)
    ∧ (row.diameter = "" →
        neo.diameter = PyFloat.nan ∧ neo.diameter ≠ PyFloat.val 0)
    ∧ (∀ f, row.diameter ≠ "" → parseFloat row.diameter = some f →
        neo.diameter = f) := by
  obtain ⟨f, hf, hneo⟩ := (parseNeoRow_ok_iff row neo).1 h
  subst hneo
  refine ⟨fun hn => by simp [hn], fun hn => by simp [hn],
          fun hd => ?_, fun f2 hd hpf => ?_⟩
  · rw [if_pos hd] at hf
    injection hf with hf
    subst hf
    exact ⟨rfl, by simp⟩
  · rw [if_neg hd] at hf
    rw [hpf] at hf
    injection hf with hf
    exact hf.symm

/-- Dataset-1 row with empty name and diameter cells, used as a witness. -/
def rowEmpty : NeoRow :=
  { pdes := "433", name := "", diameter := "", pha := "N" }

/-- The NEO parsed from `rowEmpty`. -/
def neoEmpty : NearEarthObject :=
  { designation := "433", name := none, diameter := PyFloat.nan,
    hazardous := false, approaches := [] }

/-- C6 witness on a row with empty name and diameter cells. -/
theorem load_neos_sentinels_witness :
    (rowEmpty.name = "" → neoEmpty.name = none)
    ∧ (rowEmpty.name ≠ "" → neoEmpty.name = some rowEmpty.name)
    ∧ (rowEmpty.diameter = "" →
        neoEmpty.diameter = PyFloat.nan ∧ neoEmpty.diameter ≠ PyFloat.val 0)
    ∧ (∀ f, rowEmpty.diameter ≠ "" → parseFloat rowEmpty.diameter = some f →
        neoEmpty.diameter = f) :=
  load_neos_sentinels rowEmpty neoEmpty rfl

/-- C7: the parsed NEO is hazardous exactly when the `pha` cell is the
literal `"Y"`; any other cell value — empty or lowercase `"y"` included —
yields not hazardous. -/
theorem load_neos_hazardous_iff (row : NeoRow) (neo : NearEarthObject)
    (h : parseNeoRow row = Except.ok neo) :
    neo.hazardous = true ↔ row.pha = "Y" := by
  obtain ⟨f, hf, hneo⟩ := (parseNeoRow_ok_iff row neo).1 h
  subst hneo
  by_cases hp : row.pha = "Y" <;> simp [hp]

/-- Dataset-1 row whose `pha` cell is lowercase `"y"`, used as a witness. -/
def rowLowerY : NeoRow :=
  { pdes := "433", name := "", diameter := "", pha := "y" }

/-- C7 witness: lowercase `"y"` does not mark the NEO hazardous. -/
theorem load_neos_hazardous_iff_witness :
    neoEmpty.hazardous = true ↔ rowLowerY.pha = "Y" :=
  load_neos_hazardous_iff rowLowerY neoEmpty rfl

/-- The example NEO `433 (Eros)` with diameter `16.84`. -/
def sampleEros : NearEarthObject :=
  { designation := "433", name := some "Eros",
    diameter := PyFloat.val (mkRat 421 25), hazardous := false,
    approaches := [] }

/-- C8: `fullname` is `"{designation} ({name})"` when the name is present and
the bare designation when absent; in particular designation `"433"` with
name `"Eros"` gives `"433 (Eros)"`. -/
theorem fullname_spec (neo : NearEarthObject) :
    (∀ n, neo.name = some n →
        neo.fullname = neo.designation ++ " (" ++ n ++ ")")
    ∧ (neo.name = none → neo.fullname = neo.designation)
    ∧ sampleEros.fullname = "433 (Eros)" := by
  refine ⟨fun n hn => ?_, fun hn => ?_, rfl⟩
  · simp [NearEarthObject.fullname, hn]
  · simp [NearEarthObject.fullname, hn]

/-- C8 witness at `433 (Eros)`. -/
theorem fullname_spec_witness :
    sampleEros.fullname = sampleEros.designation ++ " (" ++ "Eros" ++ ")" :=
  (fullname_spec sampleEros).1 "Eros" rfl

/-- C9: the `CloseApproach` constructor validates nothing about distance,
velocity or designation — any values whatsoever are stored unchanged, the
`neo` reference starts absent, and the construction fails exactly when
parsing the time argument fails. -/
theorem closeApproach_init_no_validation
    (time distance velocity designation : PyVal) :
    (∀ t, cd_to_datetime time = Except.ok t →
        CloseApproach.init time distance velocity designation
          = Except.ok { _designation := designation, time := t,
                        distance := distance, velocity := velocity,
                        neo := none })
    ∧ (∀ e, cd_to_datetime time = Except.error e →
        CloseApproach.init time distance velocity designation
          = Except.error e) := by
  constructor <;> intro x hx <;> simp [CloseApproach.init, hx]

/-- A well-formed compact time string, used as a witness. -/
def sampleTime : PyVal := PyVal.str "1900-01-01 12:00"

/-- C9 witness: an integer distance, a `None` velocity and a boolean
designation are all stored untouched. -/
theorem closeApproach_init_no_validation_witness :
    CloseApproach.init sampleTime (PyVal.int 7) PyVal.none (PyVal.bool true)
      = Except.ok { _designation := PyVal.bool true,
                    time := { year := 1900, month := 1, day := 1,
                              hour := 12, minute := 0 },
                    distance := PyVal.int 7, velocity := PyVal.none,
                    neo := none } :=
  (closeApproach_init_no_validation sampleTime (PyVal.int 7) PyVal.none
      (PyVal.bool true)).1
    { year := 1900, month := 1, day := 1, hour := 12, minute := 0 } rfl

/-- C10: a successful load yields exactly one entity per input record, in
input order — the i-th NEO comes from the i-th CSV row and the i-th approach
from the i-th element of the JSON `data` array, with matching lengths. -/
theorem load_order_and_length (rows : List NeoRow)
    (neos : List NearEarthObject) (arows : List (List PyVal))
    (cas : List CloseApproach)
    (h1 : load_neos rows = Except.ok neos)
    (h2 : load_approaches arows = Except.ok cas) :
    neos.length = rows.length ∧ cas.length = arows.length
    ∧ (∀ i r, rows.get? i = some r →
        ∃ neo, parseNeoRow r = Except.ok neo ∧ neos.get? i = some neo)
    ∧ (∀ i r, arows.get? i = some r →
        ∃ ca, parseApproachRow r = Except.ok ca ∧ cas.get? i = some ca) :=
  let h3 := load_neos_ok rows neos h1
  let h4 := load_approaches_ok arows cas h2
  ⟨h3.1, h4.1, h3.2, h4.2⟩

/-- The dataset-1 row for `433 (Eros)`, used as a witness. -/
def sampleNeoRow : NeoRow :=
  { pdes := "433", name := "Eros", diameter := "16.84", pha := "N" }

/-- A dataset-2 `data` entry for designation `433`, used as a witness. -/
def sampleCadRow : List PyVal :=
  [PyVal.str "433", PyVal.none, PyVal.none, PyVal.str "1900-01-01 12:00",
   PyVal.str "0.15", PyVal.none, PyVal.none, PyVal.str "5.2"]

/-- The approach parsed from `sampleCadRow`. -/
def sampleApproach : CloseApproach :=
  { _designation := PyVal.str "433",
    time := { year := 1900, month := 1, day := 1, hour := 12, minute := 0 },
    distance := PyVal.float (PyFloat.val (mkRat 3 20)),
    velocity := PyVal.float (PyFloat.val (mkRat 26 5)), neo := none }

/-- C10 witness on singleton loads. -/
theorem load_order_and_length_witness :
    [sampleEros].length = [sampleNeoRow].length
    ∧ [sampleApproach].length = [sampleCadRow].length
    ∧ (∀ i r, [sampleNeoRow].get? i = some r →
        ∃ neo, parseNeoRow r = Except.ok neo ∧ [sampleEros].get? i = some neo)
    ∧ (∀ i r, [sampleCadRow].get? i = some r →
        ∃ ca, parseApproachRow r = Except.ok ca
          ∧ [sampleApproach].get? i = some ca) :=
  load_order_and_length [sampleNeoRow] [sampleEros] [sampleCadRow]
    [sampleApproach] rfl rfl

end Neo
